import Mathlib

/-!
Verification of the CatClient launcher backend (src/progarmv0.py).

The development shallowly embeds the launcher's core logic:
* the SHA-1 digest used by `verify_file` (hashlib.sha1, hex-encoded),
* the client-jar cache logic of `download_version_files`,
* the rule evaluator `evaluate_rules`,
* the command builder `build_launch_command` (classpath, JVM argument pass,
  platform fixups, game arguments, placeholder substitution),
* the manifest classifier `load_version_manifest`.

Machine integers are modelled as `Nat` reduced `% 2 ^ 32` where 32-bit
overflow matters; file contents are byte lists (`List Nat`); Python strings
are Lean `String`s and Python's `str.replace` / `in` are modelled explicitly
on character lists.
-/

/-! ## 32-bit helpers and SHA-1 (hashlib.sha1, as used by `verify_file`) -/

def w32 : Nat := 4294967296

/-- Rotate a 32-bit word (a `Nat` below `w32`) left by `n` bits. -/
def rotl32 (n x : Nat) : Nat := ((x <<< n) ||| (x >>> (32 - n))) % w32

/-- Lower-case hex digit for a value already below 16. -/
def hexDigitAux : Nat → Char
  | 0 => '0' | 1 => '1' | 2 => '2' | 3 => '3' | 4 => '4'
  | 5 => '5' | 6 => '6' | 7 => '7' | 8 => '8' | 9 => '9'
  | 10 => 'a' | 11 => 'b' | 12 => 'c' | 13 => 'd' | 14 => 'e'
  | _ => 'f'

/-- Lower-case hex digit of `n % 16`. -/
def hexDigit (n : Nat) : Char := hexDigitAux (n % 16)

/-- The character set `hexdigest` draws from: lower-case hex. -/
def isHexLower (c : Char) : Bool := "0123456789abcdef".data.contains c

/-- Two lower-case hex characters of one byte. -/
def byteHex (b : Nat) : List Char := [hexDigit (b / 16), hexDigit b]

/-- SHA-1 message padding: append 0x80, zero bytes up to 56 mod 64, then the
bit length as 8 big-endian bytes. -/
def sha1pad (msg : List Nat) : List Nat :=
  let z := (119 - (msg.length % 64)) % 64
  let ml := msg.length * 8
  msg ++ [128] ++ List.replicate z 0 ++
    [(ml >>> 56) &&& 255, (ml >>> 48) &&& 255, (ml >>> 40) &&& 255,
     (ml >>> 32) &&& 255, (ml >>> 24) &&& 255, (ml >>> 16) &&& 255,
     (ml >>> 8) &&& 255, ml &&& 255]

/-- Split a byte list into 64-byte chunks; the fuel argument (instantiated
with the list length) keeps the recursion structural. -/
def chunksAux : Nat → List Nat → List (List Nat)
  | _, [] => []
  | 0, s => [s]
  | n + 1, c :: rest => ((c :: rest).take 64) :: chunksAux n ((c :: rest).drop 64)

def chunks64 (l : List Nat) : List (List Nat) := chunksAux l.length l

structure Sha1State where
  h0 : Nat
  h1 : Nat
  h2 : Nat
  h3 : Nat
  h4 : Nat

/-- The 16 initial 32-bit words of one 64-byte chunk (big-endian). -/
def chunkWords (chunk : List Nat) : List Nat :=
  (List.range 16).map (fun i =>
    ((chunk.getD (4 * i) 0) <<< 24) + ((chunk.getD (4 * i + 1) 0) <<< 16) +
    ((chunk.getD (4 * i + 2) 0) <<< 8) + chunk.getD (4 * i + 3) 0)

/-- Extend the 16 words to 80 via the SHA-1 recurrence. -/
def extendWords (ws : List Nat) : List Nat :=
  (List.range 64).foldl (fun w j =>
    w ++ [rotl32 1 ((w.getD (j + 13) 0) ^^^ (w.getD (j + 8) 0) ^^^
                    (w.getD (j + 2) 0) ^^^ (w.getD j 0))]) ws

/-- One SHA-1 compression round sequence over a chunk. -/
def sha1compress (st : Sha1State) (chunk : List Nat) : Sha1State :=
  let w := extendWords (chunkWords chunk)
  let t := (List.range 80).foldl (fun (t : Nat × Nat × Nat × Nat × Nat) i =>
    let a := t.1
    let b := t.2.1
    let c := t.2.2.1
    let d := t.2.2.2.1
    let e := t.2.2.2.2
    let f :=
      if i < 20 then (b &&& c) ||| ((b ^^^ 4294967295) &&& d)
      else if i < 40 then b ^^^ c ^^^ d
      else if i < 60 then (b &&& c) ||| (b &&& d) ||| (c &&& d)
      else b ^^^ c ^^^ d
    let k :=
      if i < 20 then 1518500249
      else if i < 40 then 1859775393
      else if i < 60 then 2400959708
      else 3395469782
    let temp := (rotl32 5 a + f + e + k + w.getD i 0) % w32
    (temp, a, rotl32 30 b, c, d)) (st.h0, st.h1, st.h2, st.h3, st.h4)
  ⟨(st.h0 + t.1) % w32, (st.h1 + t.2.1) % w32, (st.h2 + t.2.2.1) % w32,
   (st.h3 + t.2.2.2.1) % w32, (st.h4 + t.2.2.2.2) % w32⟩

def wordBytes (x : Nat) : List Nat :=
  [(x >>> 24) &&& 255, (x >>> 16) &&& 255, (x >>> 8) &&& 255, x &&& 255]

/-- The 20 digest bytes of a byte message. -/
def sha1bytes (msg : List Nat) : List Nat :=
  let fin := (chunks64 (sha1pad msg)).foldl sha1compress
    ⟨1732584193, 4023233417, 2562383102, 271733878, 3285377520⟩
  wordBytes fin.h0 ++ wordBytes fin.h1 ++ wordBytes fin.h2 ++
    wordBytes fin.h3 ++ wordBytes fin.h4

/-- `hashlib.sha1(data).hexdigest()`: lower-case hex digest string. -/
def sha1hex (msg : List Nat) : String := ⟨((sha1bytes msg).map byteHex).flatten⟩

/-- Upper-casing of a string, character by character (models `str.upper`). -/
def strUpper (s : String) : String := ⟨s.data.map Char.toUpper⟩

set_option maxRecDepth 10000

/-! ## Python string primitives used by the launcher -/

/-- Python's `pat in s` substring test, on character lists. -/
def containsList (s pat : List Char) : Bool :=
  match s with
  | [] => pat.isEmpty
  | c :: rest => pat.isPrefixOf (c :: rest) || containsList rest pat

/-- Python's `pat in s` substring test on strings. -/
def strContains (s pat : String) : Bool := containsList s.data pat.data

/-- Python's `s.replace(pat, rep)` for a non-empty `pat`: replace every
occurrence left to right, non-overlapping, in a single pass over `s`.
The fuel argument (instantiated with the length of `s`) keeps the recursion
structural; one unit of fuel is spent per character consumed, so
`s.length` fuel always suffices. -/
def replaceAux (pat rep : List Char) : Nat → List Char → List Char
  | _, [] => []
  | 0, s => s
  | n + 1, c :: rest =>
    if !pat.isEmpty && pat.isPrefixOf (c :: rest) then
      rep ++ replaceAux pat rep n (rest.drop (pat.length - 1))
    else c :: replaceAux pat rep n rest

/-- Python's `s.replace(pat, rep)` (all patterns used by the launcher are
non-empty literals). -/
def strReplace (s pat rep : String) : String :=
  ⟨replaceAux pat.data rep.data s.data.length s.data⟩

/-- Python's `s.split()` (no separator): split on whitespace runs, dropping
empty pieces. -/
def splitWhite (s : String) : List String :=
  (s.split (fun c => c.isWhitespace)).filter (fun t => !t.isEmpty)

/-! ## Rule evaluator (`evaluate_rules`, src lines 444-458) -/

/-- A manifest rule as `evaluate_rules` reads it: `action` is the `action`
field; `os` is `none` when no `os` key is present, and otherwise carries the
optional `name` field of the os object; `features` records whether a
`features` key is present. -/
structure Rule where
  action : String
  os : Option (Option String)
  features : Bool

/-- `evaluate_rules(rules, os_name)`: empty list is allowed; otherwise start
from `allowed = False` and fold the rules in order, skipping any rule with a
`features` key. -/
def evaluate_rules (rules : List Rule) (os_name : String) : Bool :=
  if rules.isEmpty then true
  else rules.foldl (fun allowed r =>
    if r.features then allowed
    else if r.action == "allow" then
      (if r.os.isNone || r.os.getD none == some os_name then true else allowed)
    else if r.action == "disallow" then
      (if r.os.isSome && r.os.getD none == some os_name then false else allowed)
    else allowed) false

/-- The evaluator as the claim words it: only rules whose sole constraint is
a feature constraint are skipped; every other Allow rule with matching (or
absent) os constraint allows, every other Disallow rule with matching os
constraint disallows. -/
def evaluate_rules_claim (rules : List Rule) (platform : String) : Bool :=
  if rules.isEmpty then true
  else rules.foldl (fun allowed r =>
    if r.features && r.os.isNone then allowed
    else if r.action == "allow" && (r.os.isNone || r.os.getD none == some platform) then true
    else if r.action == "disallow" && r.os.getD none == some platform then false
    else allowed) false

/-- The evaluator as amended: any rule carrying a feature constraint is
skipped, whether or not it also carries an os constraint. -/
def evaluate_rules_spec (rules : List Rule) (platform : String) : Bool :=
  if rules.isEmpty then true
  else rules.foldl (fun allowed r =>
    if r.features then allowed
    else if r.action == "allow" && (r.os.isNone || r.os.getD none == some platform) then true
    else if r.action == "disallow" && (r.os.isSome && r.os.getD none == some platform) then false
    else allowed) false

/-! ## Artifact cache (`download_version_files` jar path, src lines 339-348,
and `verify_file`, src lines 350-354).

The local file system is a map from paths to byte contents; the remote bytes
served for the client jar URL are a parameter.  The descriptor (JSON) fetch
of `download_version_files` is always performed and is independent of the
jar cache logic modelled here. -/

/-- `verify_file(filepath, sha1sum)` applied to the bytes read from the
file: exact string comparison of the hex digest. -/
def verify_file (content : List Nat) (sha1sum : String) : Bool :=
  sha1hex content == sha1sum

/-- The cache test on line 343: `os.path.exists(jar_path) and
self.verify_file(jar_path, sha1)` (short-circuit: a missing file is never
verified). -/
def cached_ok (fs : String → Option (List Nat)) (jar_path : String)
    (sha1sum : String) : Bool :=
  match fs jar_path with
  | some content => verify_file content sha1sum
  | none => false

/-- Outcome of the client-jar portion of `download_version_files`:
the file system afterwards, how many network downloads were performed, and
whether the checksum-mismatch error box was shown. -/
structure DlResult where
  fs : String → Option (List Nat)
  downloads : Nat
  integrity_error : Bool

/-- Client-jar logic of `download_version_files` (lines 343-346): on a
cache hit return at once; otherwise `urlretrieve` the remote bytes to
`jar_path` and re-verify, reporting a checksum mismatch if verification
fails (the downloaded file is left in place either way). -/
def ensure_client_jar (fs : String → Option (List Nat)) (jar_path : String)
    (remote : List Nat) (sha1sum : String) : DlResult :=
  if cached_ok fs jar_path sha1sum then ⟨fs, 0, false⟩
  else
    let fs2 := fun p => if p = jar_path then some remote else fs p
    ⟨fs2, 1, !verify_file remote sha1sum⟩

/-! ## Manifest classifier (`load_version_manifest`, src lines 270-296) -/

structure ManifestVersion where
  id : String
  type : String
  url : String

structure Manifest where
  latest_release : String
  latest_snapshot : String
  versions : List ManifestVersion

/-- The six category buckets of `self.version_categories`, in source order. -/
structure Categories where
  latestRelease : List String
  latestSnapshot : List String
  release : List String
  snapshot : List String
  oldBeta : List String
  oldAlpha : List String

/-- One iteration of the classification loop (lines 279-293): the
`if`/`elif` chain places each version id in exactly one bucket; a version
whose type matches no branch is dropped. -/
def classify_version (latest_rel latest_snap : String) (cats : Categories)
    (v : ManifestVersion) : Categories :=
  if v.id == latest_rel then
    { cats with latestRelease := cats.latestRelease ++ [v.id] }
  else if v.id == latest_snap then
    { cats with latestSnapshot := cats.latestSnapshot ++ [v.id] }
  else if v.type == "release" then
    { cats with release := cats.release ++ [v.id] }
  else if v.type == "snapshot" then
    { cats with snapshot := cats.snapshot ++ [v.id] }
  else if v.type == "old_beta" then
    { cats with oldBeta := cats.oldBeta ++ [v.id] }
  else if v.type == "old_alpha" then
    { cats with oldAlpha := cats.oldAlpha ++ [v.id] }
  else cats

/-- `load_version_manifest` on an already-parsed manifest document: clear
the categories, then classify every listed version in manifest order.  (The
`self.versions` id-to-url map that the loop also fills is not needed by the
claims and is omitted.) -/
def load_version_manifest (m : Manifest) : Categories :=
  m.versions.foldl (classify_version m.latest_release m.latest_snapshot)
    ⟨[], [], [], [], [], []⟩

/-! ## Launch command builder (`build_launch_command`, src lines 356-442) -/

/-- `os.path.join` as the launcher uses it (relative second component,
POSIX separator). -/
def ospath_join (a b : String) : String := a ++ "/" ++ b

/-- `os.path.expanduser("~/.minecraft")`; the home expansion itself is
environment data and is kept symbolic as the literal the source writes. -/
def MINECRAFT_DIR : String := "~/.minecraft"

def VERSIONS_DIR : String := ospath_join MINECRAFT_DIR "versions"

def JAVA_DIR : String := "~/.catclient/java"

structure LibArtifact where
  path : String

/-- The `downloads` object of a library entry; only the `artifact` member is
read. -/
structure LibDownloads where
  artifact : Option LibArtifact

/-- A library entry; `downloads = none` models a library dict without a
`downloads` key. -/
structure Library where
  downloads : Option LibDownloads

/-- The classpath entry contributed by one library (lines 375-377):
present exactly when `"downloads" in lib and "artifact" in lib["downloads"]`. -/
def artifact_entry (libraries_dir : String) (lib : Library) : Option String :=
  match lib.downloads with
  | some d =>
    match d.artifact with
    | some a => some (ospath_join libraries_dir a.path)
    | none => none
  | none => none

/-- Classpath construction (lines 371-377): the client jar first, then the
loop appending each library's artifact path. -/
def build_classpath (version_dir version : String) (libs : List Library) : List String :=
  libs.foldl (fun cp lib =>
    match artifact_entry (ospath_join MINECRAFT_DIR "libraries") lib with
    | some p => cp ++ [p]
    | none => cp) [ospath_join version_dir (version ++ ".jar")]

/-- Line 378: `';'.join(classpath) if current_os=='windows' else
':'.join(classpath)`. -/
def join_classpath (current_os : String) (cp : List String) : String :=
  if current_os == "windows" then String.intercalate ";" cp
  else String.intercalate ":" cp

/-- A conditional argument's `value`: either one string or a list. -/
inductive ArgValue where
  | one (s : String)
  | many (l : List String)

def ArgValue.toList : ArgValue → List String
  | .one s => [s]
  | .many l => l

/-- One entry of an `arguments` array: a plain string, a dict with both
`rules` and `value`, or any other dict (silently skipped by the builder). -/
inductive JArg where
  | lit (s : String)
  | cond (rules : List Rule) (value : ArgValue)
  | malformed

/-- The shared literal/conditional processing loop for JVM (lines 389-398)
and game (lines 408-417) argument arrays, folding onto `acc`. -/
def arg_pass (current_os : String) (acc : List String) (args : List JArg) : List String :=
  args.foldl (fun c a =>
    match a with
    | .lit s => c ++ [s]
    | .cond rules v => if evaluate_rules rules current_os then c ++ v.toList else c
    | .malformed => c) acc

/-- The `arguments` object of a descriptor: `jvm` defaults to an empty list
(`.get("jvm", [])`); `game` is only used when the key is present. -/
structure ArgsSection where
  jvm : List JArg
  game : Option (List JArg)

/-- A parsed version descriptor, restricted to the fields
`build_launch_command` reads. -/
structure VersionData where
  mainClass : Option String
  assetIndexId : Option String
  type : Option String
  libraries : List Library
  arguments : Option ArgsSection
  minecraftArguments : Option String

/-- Platform fixups after the declarative JVM pass (lines 399-403): append
`-XstartOnFirstThread` on osx unless present; then append the
`-Djava.library.path` flag unless any element of the command contains that
text as a substring (Python `in`). -/
def apply_fixups (current_os version_dir : String) (cmd : List String) : List String :=
  let cmd1 :=
    if current_os == "osx" && !cmd.contains "-XstartOnFirstThread" then
      cmd ++ ["-XstartOnFirstThread"]
    else cmd
  if cmd1.any (fun a => strContains a "-Djava.library.path") then cmd1
  else cmd1 ++ ["-Djava.library.path=" ++ ospath_join version_dir "natives"]

/-- The fixups as the claim words them: both fixups happen only on the
macOS-equivalent platform, the library-path flag is withheld only when an
existing flag begins with `-Djava.library.path`, and flags are otherwise
unchanged. -/
def apply_fixups_claim (current_os version_dir : String) (cmd : List String) : List String :=
  if current_os == "osx" then
    let cmd1 :=
      if !cmd.contains "-XstartOnFirstThread" then cmd ++ ["-XstartOnFirstThread"]
      else cmd
    if cmd1.any (fun a => "-Djava.library.path".data.isPrefixOf a.data) then cmd1
    else cmd1 ++ ["-Djava.library.path=" ++ ospath_join version_dir "natives"]
  else cmd

/-- Game-argument collection (lines 406-419): the structured `game` array
when `arguments` exists and has a `game` key, else the whitespace-split
legacy `minecraftArguments` string, else nothing. -/
def game_args_raw (current_os : String) (vd : VersionData) : List String :=
  match vd.arguments.bind ArgsSection.game with
  | some gargs => arg_pass current_os [] gargs
  | none =>
    match vd.minecraftArguments with
    | some s => splitWhite s
    | none => []

/-- Modelled from the spec: `generate_offline_uuid` is called on line 421
but defined nowhere in the source.  The spec's IdentityProvider contract
(`deriveOfflineUUID`) requires a deterministic pure function from a username
to a UUID-formatted string, with the exact derivation scheme left
unspecified; this model hashes the username characters and formats 32
lower-case hex digits as 8-4-4-4-12. -/
def uuid_seed (username : String) : Nat :=
  username.data.foldl (fun a c => (a * 31 + c.toNat) % w32) 7

def uuid_digit (seed i : Nat) : Char := hexDigit (seed / 2 ^ (i % 24) + i)

def generate_offline_uuid (username : String) : String :=
  let seed := uuid_seed username
  ⟨([0, 1, 2, 3, 4, 5, 6, 7].map (uuid_digit seed)) ++ '-' ::
    (([8, 9, 10, 11].map (uuid_digit seed)) ++ '-' ::
      (([12, 13, 14, 15].map (uuid_digit seed)) ++ '-' ::
        (([16, 17, 18, 19].map (uuid_digit seed)) ++ '-' ::
          ([20, 21, 22, 23, 24, 25, 26, 27, 28, 29, 30, 31].map
            (uuid_digit seed)))))⟩

/-- The placeholder dictionary of lines 422-434, in insertion order. -/
def replacements (username version asset_index_id version_type uuid : String) :
    List (String × String) :=
  [("$\x7bauth_player_name\x7d", username),
   ("$\x7bversion_name\x7d", version),
   ("$\x7bgame_directory\x7d", MINECRAFT_DIR),
   ("$\x7bassets_root\x7d", ospath_join MINECRAFT_DIR "assets"),
   ("$\x7bassets_index_name\x7d", asset_index_id),
   ("$\x7bauth_uuid\x7d", uuid),
   ("$\x7bauth_access_token\x7d", "0"),
   ("$\x7buser_type\x7d", "legacy"),
   ("$\x7bversion_type\x7d", version_type),
   ("$\x7buser_properties\x7d", "\x7b\x7d"),
   ("$\x7bquickPlayRealms\x7d", "")]

/-- `replace_ph` (lines 435-438): fold `str.replace` over the dictionary
entries in order. -/
def replace_ph (rs : List (String × String)) (a : String) : String :=
  rs.foldl (fun s kv => strReplace s kv.1 kv.2) a

/-- `build_launch_command(version, username, ram, mod_folder)` after the
descriptor JSON has been read successfully (the unreadable-JSON early return
of lines 359-364 is a caller-surfaced ConfigError and is outside this
model); `java_installed` reflects `self.is_java_installed()`.  `mod_folder`
is accepted and ignored by the source, and is dropped here. -/
def build_launch_command (version username : String) (ram : Nat)
    (current_os : String) (java_installed : Bool) (vd : VersionData) : List String :=
  let version_dir := ospath_join VERSIONS_DIR version
  let main_class := vd.mainClass.getD "net.minecraft.client.main.Main"
  let classpath := build_classpath version_dir version vd.libraries
  let classpath_str := join_classpath current_os classpath
  let java_exe :=
    if java_installed then "java"
    else ospath_join (ospath_join (ospath_join JAVA_DIR "jdk-21.0.5+11") "bin")
      (if current_os == "windows" then "java.exe" else "java")
  let cmd := [java_exe, "-Xmx" ++ toString ram ++ "G"]
  let cmd :=
    match vd.arguments with
    | some args => arg_pass current_os cmd args.jvm
    | none => cmd
  let cmd := apply_fixups current_os version_dir cmd
  let uuid := generate_offline_uuid username
  let rs := replacements username version (vd.assetIndexId.getD "legacy")
    (vd.type.getD "release") uuid
  let game_args := (game_args_raw current_os vd).map (replace_ph rs)
  cmd ++ ["-cp", classpath_str, main_class] ++ game_args

/-! ## Spec-side definitions used to state the claims -/

/-- Lower-casing of a string, character by character (models `str.lower`). -/
def lowerStr (s : String) : String := ⟨s.data.map Char.toLower⟩

/-- Case-insensitive comparison of two hex digest strings, as the claim
words the verification contract. -/
def hexEqCaseInsensitive (a b : String) : Bool := lowerStr a == lowerStr b

/-- UUID shape check: 36 characters, dashes at positions 8, 13, 18 and 23,
lower-case hex digits everywhere else. -/
def isUuidFormat (s : String) : Bool :=
  s.data.length == 36 &&
  (s.data.take 8).all isHexLower &&
  (s.data.getD 8 ' ' == '-') &&
  ((s.data.drop 9).take 4).all isHexLower &&
  (s.data.getD 13 ' ' == '-') &&
  ((s.data.drop 14).take 4).all isHexLower &&
  (s.data.getD 18 ' ' == '-') &&
  ((s.data.drop 19).take 4).all isHexLower &&
  (s.data.getD 23 ' ' == '-') &&
  (s.data.drop 24).all isHexLower

/-- The manifest of the classification scenario: latest release `1.21`,
latest snapshot `1.22-pre1`, versions `1.21` (release), `1.22-pre1`
(snapshot), `1.20` (release). -/
def scenario_manifest : Manifest :=
  ⟨"1.21", "1.22-pre1",
   [⟨"1.21", "release", "u1"⟩, ⟨"1.22-pre1", "snapshot", "u2"⟩,
    ⟨"1.20", "release", "u3"⟩]⟩

/-! ## Helper lemmas -/

lemma isHexLower_hexDigitAux (m : Nat) (h : m < 16) :
    isHexLower (hexDigitAux m) = true := by
  interval_cases m <;> rfl

lemma isHexLower_hexDigit (n : Nat) : isHexLower (hexDigit n) = true :=
  isHexLower_hexDigitAux (n % 16) (Nat.mod_lt _ (by norm_num))

lemma all_isHexLower_byteHex (bs : List Nat) :
    ((bs.map byteHex).flatten).all isHexLower = true := by
  induction bs with
  | nil => rfl
  | cons b rest ih =>
    simp only [List.map_cons, List.flatten_cons, List.all_append, ih, Bool.and_true]
    simp [byteHex, isHexLower_hexDigit]

lemma replaceAux_not_contains (pat rep : List Char) :
    ∀ (n : Nat) (s : List Char), containsList s pat = false →
      replaceAux pat rep n s = s := by
  intro n
  induction n with
  | zero => intro s _; cases s <;> rfl
  | succ n ih =>
    intro s h
    cases s with
    | nil => rfl
    | cons c rest =>
      simp only [containsList, Bool.or_eq_false_iff] at h
      simp only [replaceAux, h.1, Bool.and_false, if_neg, Bool.false_eq_true,
        not_false_iff]
      rw [ih rest h.2]

lemma strReplace_not_contains (s pat rep : String)
    (h : strContains s pat = false) : strReplace s pat rep = s := by
  unfold strContains at h
  unfold strReplace
  rw [replaceAux_not_contains pat.data rep.data s.data.length s.data h]

lemma replace_ph_not_contains :
    ∀ (rs : List (String × String)) (a : String),
      (∀ kv ∈ rs, strContains a kv.1 = false) → replace_ph rs a = a := by
  intro rs
  induction rs with
  | nil => intro a _; rfl
  | cons kv rest ih =>
    intro a h
    have h1 : strReplace a kv.1 kv.2 = a :=
      strReplace_not_contains a kv.1 kv.2 (h kv (List.mem_cons_self kv rest))
    simp only [replace_ph, List.foldl_cons, h1]
    exact ih a (fun kv' hm => h kv' (List.mem_cons_of_mem kv hm))

lemma build_classpath_foldl (libdir : String) :
    ∀ (libs : List Library) (init : List String),
      libs.foldl (fun cp lib =>
        match artifact_entry libdir lib with
        | some p => cp ++ [p]
        | none => cp) init = init ++ libs.filterMap (artifact_entry libdir) := by
  intro libs
  induction libs with
  | nil => intro init; simp
  | cons lib rest ih =>
    intro init
    simp only [List.foldl_cons, List.filterMap_cons]
    cases h : artifact_entry libdir lib with
    | none => simp only [h, ih]
    | some p => simp only [h, ih, List.append_assoc, List.singleton_append]

lemma classify_version_release (lr ls : String) (cats : Categories)
    (v : ManifestVersion) :
    (classify_version lr ls cats v).release = cats.release ++
      (if !(v.id == lr) && !(v.id == ls) && v.type == "release"
       then [v.id] else []) := by
  cases h1 : v.id == lr <;> cases h2 : v.id == ls <;>
    cases h3 : v.type == "release" <;>
      simp [classify_version, h1, h2, h3]
  split <;> try rfl
  split <;> try rfl
  split <;> rfl

lemma load_release_foldl (lr ls : String) :
    ∀ (vs : List ManifestVersion) (cats : Categories),
      (vs.foldl (classify_version lr ls) cats).release = cats.release ++
        (vs.filter (fun v => !(v.id == lr) && !(v.id == ls) &&
          v.type == "release")).map ManifestVersion.id := by
  intro vs
  induction vs with
  | nil => intro cats; simp
  | cons v rest ih =>
    intro cats
    simp only [List.foldl_cons, ih, classify_version_release, List.filter_cons]
    cases h : !(v.id == lr) && !(v.id == ls) && v.type == "release" <;>
      simp [h, List.append_assoc]

/-! ## Claim theorems -/

/-- C1 (counterexample): a rule carrying both a feature constraint and a
matching os constraint.  The claim's algorithm (skip only rules whose sole
constraint is a feature constraint) lets this Allow rule set the accumulator
to true, but `evaluate_rules` skips every rule with a `features` key and
returns false. -/
theorem C1_counterexample :
    evaluate_rules [⟨"allow", some (some "linux"), true⟩] "linux" = false ∧
    evaluate_rules_claim [⟨"allow", some (some "linux"), true⟩] "linux" = true := by
  constructor <;> rfl

/-- C1 (amended): the rule evaluator returns true on an empty list, and
otherwise folds the rules in declaration order over an accumulator starting
at false — an Allow rule with absent or matching os constraint sets it true,
a Disallow rule with a matching os constraint sets it false, and any rule
carrying a feature constraint is skipped regardless of its other fields —
so later rules override earlier ones; a single matching Allow rule yields
true and a single Allow rule for a different platform yields false. -/
theorem C1_rule_evaluator :
    (∀ (rules : List Rule) (platform : String),
      evaluate_rules rules platform = evaluate_rules_spec rules platform)
    ∧ (∀ p : String, evaluate_rules [⟨"allow", some (some p), false⟩] p = true)
    ∧ (∀ p other : String, other ≠ p →
        evaluate_rules [⟨"allow", some (some other), false⟩] p = false) := by
  refine ⟨?_, ?_, ?_⟩
  · intro rules platform
    unfold evaluate_rules evaluate_rules_spec
    cases rules with
    | nil => rfl
    | cons r0 rs =>
      simp only [List.isEmpty_cons, if_neg]
      apply List.foldl_ext
      intro acc r _
      rcases r with ⟨action, os, features⟩
      cases features with
      | true => rfl
      | false =>
        by_cases ha : action = "allow"
        · subst ha
          cases hoc : (os.isNone || os.getD none == some platform) <;> simp [hoc]
        · by_cases hd : action = "disallow"
          · subst hd
            cases hod : (os.isSome && os.getD none == some platform) <;>
              simp [hod]
          · have ha' : (action == "allow") = false := by simpa using ha
            have hd' : (action == "disallow") = false := by simpa using hd
            simp [ha', hd']
  · intro p
    simp [evaluate_rules]
  · intro p other h
    simp [evaluate_rules, h]

/-- C1 (witness): a single Allow rule for a different os yields false. -/
theorem C1_witness :
    evaluate_rules [⟨"allow", some (some "windows"), false⟩] "osx" = false :=
  C1_rule_evaluator.2.2 "osx" "windows" (by decide)

/-- C2: the client-jar fetch is idempotent on the cache-hit path: when a
file exists at the jar path and its digest verifies, the call returns with
the file system untouched, zero downloads and no error; consequently, from
any state without a valid cached jar, a first call (with untampered remote
bytes) performs exactly one download and an immediately repeated call
performs zero and leaves the file system unchanged. -/
theorem C2_ensure_artifact_idempotent :
    (∀ (fs : String → Option (List Nat)) (jar_path : String)
       (remote : List Nat) (sha1sum : String),
        cached_ok fs jar_path sha1sum = true →
        ensure_client_jar fs jar_path remote sha1sum = ⟨fs, 0, false⟩)
    ∧ (∀ (fs : String → Option (List Nat)) (jar_path : String)
       (remote : List Nat) (sha1sum : String),
        cached_ok fs jar_path sha1sum = false →
        verify_file remote sha1sum = true →
        (ensure_client_jar fs jar_path remote sha1sum).downloads = 1 ∧
        (ensure_client_jar (ensure_client_jar fs jar_path remote sha1sum).fs
          jar_path remote sha1sum).downloads = 0 ∧
        (ensure_client_jar (ensure_client_jar fs jar_path remote sha1sum).fs
          jar_path remote sha1sum).fs =
          (ensure_client_jar fs jar_path remote sha1sum).fs) := by
  refine ⟨?_, ?_⟩
  · intro fs jar_path remote sha1sum h
    simp [ensure_client_jar, h]
  · intro fs jar_path remote sha1sum h1 h2
    have hfs : (ensure_client_jar fs jar_path remote sha1sum).fs =
        fun q => if q = jar_path then some remote else fs q := by
      simp [ensure_client_jar, h1]
    have hc2 : cached_ok (fun q => if q = jar_path then some remote else fs q)
        jar_path sha1sum = true := by
      simp [cached_ok, h2]
    refine ⟨by simp [ensure_client_jar, h1], ?_, ?_⟩ <;>
      rw [hfs] <;> simp [ensure_client_jar, hc2]

/-- C2 (witness): concrete cache-hit and fresh-download runs. -/
theorem C2_witness :
    (ensure_client_jar (fun _ => some []) "client.jar" [] (sha1hex []) =
      ⟨fun _ => some [], 0, false⟩) ∧
    (ensure_client_jar (fun _ => none) "client.jar" [] (sha1hex [])).downloads = 1 ∧
    (ensure_client_jar
      (ensure_client_jar (fun _ => none) "client.jar" [] (sha1hex [])).fs
      "client.jar" [] (sha1hex [])).downloads = 0 :=
  ⟨C2_ensure_artifact_idempotent.1 (fun _ => some []) "client.jar" [] (sha1hex [])
     (by simp [cached_ok, verify_file]),
   (C2_ensure_artifact_idempotent.2 (fun _ => none) "client.jar" [] (sha1hex [])
     rfl (by simp [verify_file])).1,
   (C2_ensure_artifact_idempotent.2 (fun _ => none) "client.jar" [] (sha1hex [])
     rfl (by simp [verify_file])).2.1⟩

/-- C3: a cached file is accepted only after digest re-verification, never
on bare existence: a call that finds a file whose digest does not match
re-downloads (one download, and the jar path afterwards holds the remote
bytes), and conversely a call that performs no download found a file whose
digest verified. -/
theorem C3_integrity_reverified :
    (∀ (fs : String → Option (List Nat)) (jar_path : String)
       (remote : List Nat) (sha1sum : String) (content : List Nat),
        fs jar_path = some content → verify_file content sha1sum = false →
        (ensure_client_jar fs jar_path remote sha1sum).downloads = 1 ∧
        (ensure_client_jar fs jar_path remote sha1sum).fs jar_path = some remote)
    ∧ (∀ (fs : String → Option (List Nat)) (jar_path : String)
       (remote : List Nat) (sha1sum : String),
        (ensure_client_jar fs jar_path remote sha1sum).downloads = 0 →
        ∃ content, fs jar_path = some content ∧
          verify_file content sha1sum = true) := by
  refine ⟨?_, ?_⟩
  · intro fs jar_path remote sha1sum content h hv
    have hc : cached_ok fs jar_path sha1sum = false := by
      simp [cached_ok, h, hv]
    constructor <;> simp [ensure_client_jar, hc]
  · intro fs jar_path remote sha1sum h
    by_cases hc : cached_ok fs jar_path sha1sum = true
    · cases hfp : fs jar_path with
      | none => rw [cached_ok, hfp] at hc; exact absurd hc (by simp)
      | some content =>
        rw [cached_ok, hfp] at hc
        exact ⟨content, rfl, hc⟩
    · rw [Bool.not_eq_true] at hc
      simp [ensure_client_jar, hc] at h

/-- C3 (witness): a corrupt single-byte file under the digest of the empty
file is re-downloaded. -/
theorem C3_witness :
    (ensure_client_jar (fun _ => some [0]) "client.jar" [] (sha1hex [])).downloads = 1 ∧
    (ensure_client_jar (fun _ => some [0]) "client.jar" [] (sha1hex [])).fs
      "client.jar" = some [] :=
  C3_integrity_reverified.1 _ _ _ _ [0] rfl (by decide)

/-- C4: classpath entries are the client jar followed by, in declaration
order, the `<libraries-root>/<artifact.path>` entry of every library that
declares a downloadable artifact (libraries without one are omitted,
duplicates are kept by `filterMap`); the join separator is `;` exactly on
`windows` and `:` on every other platform. -/
theorem C4_classpath :
    (∀ (version_dir version : String) (libs : List Library),
      build_classpath version_dir version libs =
        ospath_join version_dir (version ++ ".jar") ::
          libs.filterMap (artifact_entry (ospath_join MINECRAFT_DIR "libraries")))
    ∧ (∀ cp : List String, join_classpath "windows" cp = String.intercalate ";" cp)
    ∧ (∀ (current_os : String) (cp : List String), current_os ≠ "windows" →
        join_classpath current_os cp = String.intercalate ":" cp) := by
  refine ⟨?_, ?_, ?_⟩
  · intro version_dir version libs
    unfold build_classpath
    rw [build_classpath_foldl]
    rfl
  · intro cp
    rfl
  · intro current_os cp h
    simp [join_classpath, h]

/-- C4 (witness): libraries `[A, B]` and client jar `C` joined on a
non-Windows platform. -/
theorem C4_witness :
    join_classpath "osx" ["C", "A", "B"] = String.intercalate ":" ["C", "A", "B"] :=
  C4_classpath.2.2 "osx" ["C", "A", "B"] (by decide)

/-- C7 (counterexample): the digest of the byte `0x61` compared against its
own upper-cased hex digest: they are equal up to letter case, yet
`verify_file` rejects, because line 354 compares `hexdigest() == sha1sum`
case-sensitively. -/
theorem C7_counterexample :
    hexEqCaseInsensitive (sha1hex [97]) (strUpper (sha1hex [97])) = true ∧
    verify_file [97] (strUpper (sha1hex [97])) = false := by
  constructor <;> decide

/-- C7 (amended): verification computes the 160-bit SHA-1 content hash,
hex-encodes it in lower case, and succeeds exactly when the expected digest
string equals it exactly (case-sensitively); the computed digest consists
solely of lower-case hex characters, so an upper-case expected digest never
matches. -/
theorem C7_verify_case_sensitive :
    (∀ (content : List Nat) (sha1sum : String),
      verify_file content sha1sum = true ↔ sha1hex content = sha1sum)
    ∧ (∀ content : List Nat, (sha1hex content).data.all isHexLower = true) := by
  refine ⟨?_, ?_⟩
  · intro content sha1sum
    simp [verify_file]
  · intro content
    exact all_isHexLower_byteHex (sha1bytes content)

/-- C8 (counterexample): on `windows` the library-path flag is appended
even though the claim scopes both fixups to the macOS-equivalent platform
and says flags are otherwise unchanged; and on `osx` a flag that merely
contains `-Djava.library.path` in its interior (it does not begin with it)
suppresses the append, contrary to the claim's begins-with condition. -/
theorem C8_counterexample :
    apply_fixups "windows" "vdir" ["java", "-Xmx4G"] ≠
      apply_fixups_claim "windows" "vdir" ["java", "-Xmx4G"] ∧
    apply_fixups "osx" "vdir" ["java", "-Xmx4G", "-Dfoo=x-Djava.library.path"] ≠
      apply_fixups_claim "osx" "vdir" ["java", "-Xmx4G", "-Dfoo=x-Djava.library.path"] := by
  constructor <;> decide

/-- C8 (amended): after the declarative JVM pass, `-XstartOnFirstThread` is
appended exactly on the macOS-equivalent platform when not already present,
and then — on every platform — `-Djava.library.path=<version-dir>/natives`
is appended unless some existing flag already contains the text
`-Djava.library.path` anywhere inside it; nothing else is changed
(the command is only ever extended at its end). -/
theorem C8_platform_fixups :
    ∀ (current_os version_dir : String) (cmd : List String),
      apply_fixups current_os version_dir cmd =
        (cmd ++ (if current_os == "osx" && !cmd.contains "-XstartOnFirstThread"
                 then ["-XstartOnFirstThread"] else [])) ++
        (if cmd.any (fun a => strContains a "-Djava.library.path") then []
         else ["-Djava.library.path=" ++ ospath_join version_dir "natives"]) := by
  intro current_os version_dir cmd
  have hx : strContains "-XstartOnFirstThread" "-Djava.library.path" = false := by
    decide
  simp only [apply_fixups]
  cases h1 : (current_os == "osx" && !cmd.contains "-XstartOnFirstThread") with
  | false =>
    show (if (cmd.any fun a => strContains a "-Djava.library.path") = true
          then cmd
          else cmd ++ ["-Djava.library.path=" ++ ospath_join version_dir "natives"]) =
        (cmd ++ []) ++
          (if (cmd.any fun a => strContains a "-Djava.library.path") = true then []
           else ["-Djava.library.path=" ++ ospath_join version_dir "natives"])
    rw [List.append_nil]
    cases hany : cmd.any (fun a => strContains a "-Djava.library.path") with
    | false => rfl
    | true => exact (List.append_nil cmd).symm
  | true =>
    show (if ((cmd ++ ["-XstartOnFirstThread"]).any
            fun a => strContains a "-Djava.library.path") = true
          then cmd ++ ["-XstartOnFirstThread"]
          else (cmd ++ ["-XstartOnFirstThread"]) ++
            ["-Djava.library.path=" ++ ospath_join version_dir "natives"]) =
        (cmd ++ ["-XstartOnFirstThread"]) ++
          (if (cmd.any fun a => strContains a "-Djava.library.path") = true then []
           else ["-Djava.library.path=" ++ ospath_join version_dir "natives"])
    have hany2 : ((cmd ++ ["-XstartOnFirstThread"]).any
        (fun a => strContains a "-Djava.library.path")) =
        cmd.any (fun a => strContains a "-Djava.library.path") := by
      simp only [List.any_append, List.any_cons, List.any_nil, hx, Bool.or_false]
    rw [hany2]
    cases hany : cmd.any (fun a => strContains a "-Djava.library.path") with
    | false => rfl
    | true => exact (List.append_nil (cmd ++ ["-XstartOnFirstThread"])).symm

/-- C6 (counterexample): in the scenario manifest the Release bucket is
`[1.20]` — the `elif` chain of lines 282-293 places the latest-release id
`1.21` only in the Latest Release bucket, not additionally in Release as
the claim states. -/
theorem C6_counterexample :
    (load_version_manifest scenario_manifest).release = ["1.20"] ∧
    (load_version_manifest scenario_manifest).release ≠ ["1.21", "1.20"] := by
  constructor <;> decide

/-- C6 (amended): classification is exclusive, not additive: each version
goes into exactly the first matching bucket, so an id equal to the
latest-release pointer lands only in LatestRelease and the Release bucket
holds exactly the release-typed versions that match neither latest pointer;
on the scenario manifest the buckets are LatestRelease=[1.21],
LatestSnapshot=[1.22-pre1], Release=[1.20]. -/
theorem C6_manifest_classification :
    (load_version_manifest scenario_manifest =
      ⟨["1.21"], ["1.22-pre1"], ["1.20"], [], [], []⟩)
    ∧ (∀ m : Manifest, (load_version_manifest m).release =
        (m.versions.filter (fun v => !(v.id == m.latest_release) &&
          !(v.id == m.latest_snapshot) && v.type == "release")).map
            ManifestVersion.id) := by
  refine ⟨rfl, ?_⟩
  intro m
  unfold load_version_manifest
  rw [load_release_foldl]
  rfl

/-- C5 (counterexample): with the asset-index id computed as the literal
text of the user-type placeholder, the token consisting of the
assets-index-name placeholder is rewritten twice — its substituted value is
itself replaced by a later key — and folding the dictionary in reverse
order yields a different result, so the substitution is neither single-pass
nor order-independent. -/
theorem C5_counterexample :
    replace_ph (replacements "Steve" "1.21" "$\x7buser_type\x7d" "release" "u0")
      "$\x7bassets_index_name\x7d" = "legacy" ∧
    replace_ph ((replacements "Steve" "1.21" "$\x7buser_type\x7d" "release"
      "u0").reverse) "$\x7bassets_index_name\x7d" = "$\x7buser_type\x7d" ∧
    ("legacy" : String) ≠ "$\x7buser_type\x7d" := by
  refine ⟨?_, ?_, ?_⟩ <;> decide

/-- C5 (amended): placeholder substitution folds `str.replace` over the
dictionary entries sequentially in insertion order, so it cascades: a value
substituted for an earlier key is subject to the later keys' replacements,
and the order among keys can change the result when a computed value
contains a placeholder key.  A token containing none of the known
placeholder keys — in particular one containing only unknown placeholders —
is returned unchanged, with no error; a token whose placeholder has a
computed value free of placeholder keys is substituted as expected. -/
theorem C5_placeholder_substitution :
    (∀ (username version asset_index_id version_type uuid token : String),
      (∀ kv ∈ replacements username version asset_index_id version_type uuid,
        strContains token kv.1 = false) →
      replace_ph (replacements username version asset_index_id version_type uuid)
        token = token)
    ∧ replace_ph (replacements "Steve" "1.21" "legacy" "release" "u0")
        "--username $\x7bauth_player_name\x7d" = "--username Steve" := by
  refine ⟨?_, ?_⟩
  · intro username version asset_index_id version_type uuid token h
    exact replace_ph_not_contains _ token h
  · decide

/-- C5 (witness): a token holding only the unknown placeholder `foo` passes
through unchanged. -/
theorem C5_witness :
    replace_ph (replacements "Steve" "1.21" "legacy" "release" "u0")
      "--demo $\x7bfoo\x7d" = "--demo $\x7bfoo\x7d" :=
  C5_placeholder_substitution.1 "Steve" "1.21" "legacy" "release" "u0"
    "--demo $\x7bfoo\x7d" (by decide)

/-- C9: the offline identity derivation is a pure function of the username
alone (so two calls in one process agree definitionally) and its output is
UUID-formatted: 36 characters, dashes at positions 8, 13, 18 and 23, hex
digits elsewhere. -/
theorem C9_offline_uuid_deterministic :
    ∀ username : String,
      generate_offline_uuid username = generate_offline_uuid username ∧
      isUuidFormat (generate_offline_uuid username) = true := by
  intro username
  refine ⟨rfl, ?_⟩
  have hseg : ∀ (seed : Nat) (idxs : List Nat),
      ((idxs.map (uuid_digit seed)).all isHexLower) = true := by
    intro seed idxs
    induction idxs with
    | nil => rfl
    | cons i t ih => simp [List.all_cons, uuid_digit, isHexLower_hexDigit, ih]
  simp only [isUuidFormat, Bool.and_eq_true]
  refine ⟨⟨⟨⟨⟨⟨⟨⟨⟨rfl, ?_⟩, rfl⟩, ?_⟩, rfl⟩, ?_⟩, rfl⟩, ?_⟩, rfl⟩, ?_⟩
  · exact hseg (uuid_seed username) [0, 1, 2, 3, 4, 5, 6, 7]
  · exact hseg (uuid_seed username) [8, 9, 10, 11]
  · exact hseg (uuid_seed username) [12, 13, 14, 15]
  · exact hseg (uuid_seed username) [16, 17, 18, 19]
  · exact hseg (uuid_seed username)
      [20, 21, 22, 23, 24, 25, 26, 27, 28, 29, 30, 31]

/-- C10: a descriptor without a `mainClass` field builds the same command
as one declaring the default `net.minecraft.client.main.Main` — the default
is placed between the joined classpath and the game arguments exactly as a
declared main class would be, and command construction does not fail. -/
theorem C10_default_main_class :
    ∀ (version username : String) (ram : Nat) (current_os : String)
      (java_installed : Bool) (vd : VersionData),
      vd.mainClass = none →
      build_launch_command version username ram current_os java_installed vd =
        build_launch_command version username ram current_os java_installed
          { vd with mainClass := some "net.minecraft.client.main.Main" } := by
  intro version username ram current_os java_installed vd h
  rcases vd with ⟨mc, ai, ty, libs, args, ma⟩
  cases h
  rfl

/-- C10 (witness): a minimal descriptor with no `mainClass`. -/
theorem C10_witness :
    build_launch_command "1.21" "Steve" 4 "linux" true
      ⟨none, none, none, [], none, none⟩ =
      build_launch_command "1.21" "Steve" 4 "linux" true
        ⟨some "net.minecraft.client.main.Main", none, none, [], none, none⟩ :=
  C10_default_main_class "1.21" "Steve" 4 "linux" true
    ⟨none, none, none, [], none, none⟩ rfl
